import Mathlib

/-!
CATDOG storefront front end: chatbot widget and wishlist page

A shallow embedding of `front/src/components/Chatbot.jsx` and of
`getFilteredItems` in `front/src/pages/WishlistPage.jsx`.

Modelling conventions.

* A JavaScript string is a `String`; positions inside a string index its list
  of characters (`String.data`), each character standing for one unit of the
  string.
* An optional property of a JavaScript object is an `Option`; `none` is
  `undefined`/`null`.
* React state is an explicit record (`ChatState`); a handler is a function from
  the state of the render it was created in to the next state together with
  the list of outside effects it issued (`Effect`).
* An awaited request is split at the `await`: the part before it issues the
  request, the part after it consumes an `Outcome`.
-/

namespace Chatbot

/-! ## Data model -/

/-- Value of the `sender` field of a message. -/
inductive Sender where
  | user
  | bot
  deriving DecidableEq, Repr

/-- One entry of `messages`: `{ text, sender }`. -/
structure Message where
  text : String
  sender : Sender
  deriving DecidableEq, Repr

/-- One entry of `quickQuestions`: `{ label, cached_answer?, link? }`. -/
structure QuickReply where
  label : String
  cached_answer : Option String
  link : Option String
  deriving DecidableEq, Repr

/-- The router location as read by the component: `location.pathname` and
`location.state?.fromChatbot`. -/
structure Location where
  pathname : String
  fromChatbot : Option Bool
  deriving DecidableEq, Repr

/-- The `useState` cells of the component that carry behaviour. -/
structure ChatState where
  isOpen : Bool
  location : Location
  messages : List Message
  inputValue : String
  isLoading : Bool
  quickQuestions : List QuickReply
  deriving DecidableEq, Repr

/-- Calls that leave the component. -/
inductive Effect where
  | chatRequest (message : String) (history : List Message)
  | suggestionsRequest (current_path : String)
  | navigate (path : String) (fromChatbot : Bool)
  | windowOpen (url : String)
  deriving DecidableEq, Repr

/-- Body of a `/api/chat` response: `response.data`. -/
structure ChatData where
  reply : Option String
  deriving DecidableEq, Repr

/-- Body of a `/api/chat/suggestions` response: `res.data`. -/
structure SuggestionsData where
  suggestions : Option (List QuickReply)
  deriving DecidableEq, Repr

/-- How an awaited `client.post` ends: the promise rejects, or it resolves with
a response whose `data` is an object (`some`) or is `null`/`undefined` (`none`,
on which the property access that follows throws). -/
inductive Outcome (α : Type) where
  | rejected
  | resolved (data : Option α)
  deriving DecidableEq, Repr

/-! ## JavaScript primitives -/

/-- Truthiness of an optional string: `undefined` and `""` are falsy. -/
def truthy : Option String → Bool
  | none => false
  | some s => s != ""

/-- Truthiness of an optional boolean. -/
def truthyFlag : Option Bool → Bool
  | some true => true
  | _ => false

/-- The expression `a || b` for an optional string `a` and a string `b`. -/
def orElse (a : Option String) (b : String) : String :=
  match a with
  | some s => if s != "" then s else b
  | none => b

/-- The call `xs.slice(start)` of `Array.prototype.slice`: a negative `start`
counts from the end, and the start position is clamped to `0 .. xs.length`. -/
def slice {α : Type} (xs : List α) (start : Int) : List α :=
  let len : Int := xs.length
  let k : Int := if start < 0 then max (len + start) 0 else min start len
  xs.drop k.toNat

/-! ## Conversation controller -/

/-- The greeting the transcript starts with. -/
def greeting : Message :=
  { text := "안녕하냥! 무엇을 도와줄까냥?", sender := Sender.bot }

/-- Text of the bot turn when the response carries no reply. -/
def fallbackNoReplyText : String := "답변을 생성하지 못했다냥 😿"

/-- Text of the bot turn when the chat request fails. -/
def fallbackErrorText : String := "오류가 발생했다냥. 다시 말해달라냥!"

/-- State of the component when it mounts at `loc`. -/
def initialState (loc : Location) : ChatState :=
  { isOpen := false
    location := loc
    messages := [greeting]
    inputValue := ""
    isLoading := false
    quickQuestions := [] }

/-- The effect declared with the dependencies `[location.pathname, isOpen]`:
resets the conversation unless `location.state?.fromChatbot` is truthy, then
calls `loadSuggestions` when the widget is open. -/
def resetEffect (st : ChatState) : ChatState × List Effect :=
  let wasFromChatbot := st.location.fromChatbot
  let st1 : ChatState :=
    if !(truthyFlag wasFromChatbot) then
      { st with messages := [greeting], inputValue := "", isLoading := false }
    else st
  (st1, if st.isOpen then [Effect.suggestionsRequest st.location.pathname] else [])

/-- The part of `loadSuggestions` after its `await`. -/
def loadSuggestionsSettle (st : ChatState) (o : Outcome SuggestionsData) : ChatState :=
  match o with
  | Outcome.resolved (some d) =>
      { st with quickQuestions := match d.suggestions with
                                  | some l => l
                                  | none => [] }
  | Outcome.resolved none => st
  | Outcome.rejected => st

/-- The function `handleToggleChat`. -/
def handleToggleChat (st : ChatState) : ChatState :=
  { st with isOpen := !st.isOpen }

/-- The part of `sendMessage` up to its `await`: appends the user turn, sets
`isLoading`, and posts `text` with `messages.slice(-14)`, where `messages` is
the transcript of the render the handler belongs to. -/
def sendMessageStart (st : ChatState) (text : String) : ChatState × List Effect :=
  ({ st with messages := st.messages ++ [{ text := text, sender := Sender.user }],
             isLoading := true },
   [Effect.chatRequest text (slice st.messages (-14))])

/-- The part of `sendMessage` after its `await`: the `try` continuation, the
`catch` branch and the `finally` block. -/
def sendMessageSettle (st : ChatState) (o : Outcome ChatData) : ChatState :=
  match o with
  | Outcome.resolved (some d) =>
      let botReply := orElse d.reply fallbackNoReplyText
      { st with messages := st.messages ++ [{ text := botReply, sender := Sender.bot }],
                isLoading := false }
  | _ =>
      { st with messages := st.messages ++ [{ text := fallbackErrorText, sender := Sender.bot }],
                isLoading := false }

/-- A whole run of `sendMessage(text)` in which nothing else happens between
the request and its completion. -/
def sendMessage (st : ChatState) (text : String) (o : Outcome ChatData) :
    ChatState × List Effect :=
  let r := sendMessageStart st text
  (sendMessageSettle r.1 o, r.2)

/-- The function `handleQuickClick`, up to the `await` inside `sendMessage`
when it reaches one. -/
def handleQuickClick (st : ChatState) (q : QuickReply) : ChatState × List Effect :=
  if truthy q.cached_answer then
    let st1 : ChatState :=
      { st with messages := st.messages ++ [Message.mk q.label Sender.user] }
    let st2 : ChatState :=
      { st1 with messages := st1.messages ++ [Message.mk (q.cached_answer.getD "") Sender.bot] }
    (st2, if truthy q.link then [Effect.navigate (q.link.getD "") true] else [])
  else
    sendMessageStart st q.label

/-- White space and line terminators, the characters `trim` strips. -/
def isWhiteSpace (c : Char) : Bool :=
  let n := c.toNat
  n = 0x09 || n = 0x0A || n = 0x0B || n = 0x0C || n = 0x0D || n = 0x20 || n = 0xA0 ||
  n = 0x1680 || (0x2000 ≤ n && n ≤ 0x200A) || n = 0x2028 || n = 0x2029 || n = 0x202F ||
  n = 0x205F || n = 0x3000 || n = 0xFEFF

/-- The call `s.trim()`. -/
def trim (s : String) : String :=
  String.mk ((s.data.dropWhile isWhiteSpace).reverse.dropWhile isWhiteSpace).reverse

/-- The function `handleSendMessage`, up to the `await` inside `sendMessage`. -/
def handleSendMessage (st : ChatState) : ChatState × List Effect :=
  if trim st.inputValue = "" then (st, [])
  else
    let msg := st.inputValue
    sendMessageStart { st with inputValue := "" } msg

/-- What can happen to a mounted widget. -/
inductive Event where
  | input (value : String)
  | send
  | chatSettled (o : Outcome ChatData)
  | quickClick (q : QuickReply)
  | toggle
  | locationChange (loc : Location)
  | suggestionsSettled (o : Outcome SuggestionsData)
  deriving DecidableEq, Repr

/-- One event on the widget. After a toggle or a location change React runs
`resetEffect` when one of its dependencies `location.pathname`, `isOpen` has
changed. -/
def step (st : ChatState) : Event → ChatState × List Effect
  | Event.input v => ({ st with inputValue := v }, [])
  | Event.send => handleSendMessage st
  | Event.chatSettled o => (sendMessageSettle st o, [])
  | Event.quickClick q => handleQuickClick st q
  | Event.toggle => resetEffect (handleToggleChat st)
  | Event.locationChange loc =>
      let st1 := { st with location := loc }
      if loc.pathname ≠ st.location.pathname then resetEffect st1 else (st1, [])
  | Event.suggestionsSettled o => (loadSuggestionsSettle st o, [])

/-- The state after a sequence of events, oldest first. -/
def run (st : ChatState) : List Event → ChatState
  | [] => st
  | e :: es => run (step st e).1 es

/-! ## Link resolver -/

/-- The fields of `new URL(linkUrl)` that `handleLinkClick` reads. -/
structure URLObj where
  origin : String
  pathname : String
  search : String
  deriving DecidableEq, Repr

/-- The call `s.startsWith(pre)`. -/
def startsWith (s pre : String) : Bool :=
  pre.data.isPrefixOf s.data

/-- The function `handleLinkClick`. The constructor `new URL` is the parameter
`parseURL` (`none` when it throws, which lands in the `catch` branch) and
`window.location.origin` is the parameter `windowOrigin`. -/
def handleLinkClick (parseURL : String → Option URLObj) (windowOrigin : String)
    (linkUrl : String) : List Effect :=
  if startsWith linkUrl "http" then
    match parseURL linkUrl with
    | some urlObj =>
        if urlObj.origin = windowOrigin then
          [Effect.navigate (urlObj.pathname ++ urlObj.search) true]
        else
          [Effect.windowOpen linkUrl]
    | none => [Effect.navigate linkUrl true]
  else
    [Effect.navigate linkUrl true]

/-- One element of the array `parts`: a substring of the text, or the span
built for a match, with its `key`, its content `title` and the `url` its click
handler passes to `handleLinkClick`. -/
inductive Part where
  | text (s : String)
  | link (key : Nat) (title : String) (url : String)
  deriving DecidableEq, Repr

/-- Return value of `renderMessage`: `null`, the array `parts`, or the text
itself. -/
inductive Rendered where
  | null
  | parts (ps : List Part)
  | raw (text : String)
  deriving DecidableEq, Repr

/-- Result of a successful `regex.exec(text)`: `match.index`, `match[1]`,
`match[2]`, and the value of `regex.lastIndex` after the call. -/
structure RegexMatch where
  index : Nat
  title : String
  url : String
  lastIndex : Nat
  deriving DecidableEq, Repr

/-- The pattern `\[([^\]]+)\]\(([^)]+)\)` anchored at the head of `s`; returns
the two captures. Each of the two greedy classes is followed by the one
character it excludes, so the only length at which the rest of the pattern can
match is the longest one, and backtracking never yields another match. -/
def matchAt : List Char → Option (List Char × List Char)
  | [] => none
  | c :: rest =>
      if c = '[' then
        let title := rest.takeWhile (fun x => x != ']')
        match rest.dropWhile (fun x => x != ']') with
        | c1 :: c2 :: rest2 =>
            if c1 = ']' ∧ c2 = '(' then
              let url := rest2.takeWhile (fun x => x != ')')
              match rest2.dropWhile (fun x => x != ')') with
              | c3 :: _ =>
                  if c3 = ')' ∧ title ≠ [] ∧ url ≠ [] then some (title, url) else none
              | [] => none
            else none
        | _ => none
      else none

/-- Leftmost match in `s`, where `s` is the text from position `i` on. -/
def searchFrom : List Char → Nat → Option RegexMatch
  | [], _ => none
  | c :: cs, i =>
      match matchAt (c :: cs) with
      | some (t, u) =>
          some { index := i, title := String.mk t, url := String.mk u,
                 lastIndex := i + (t.length + u.length + 4) }
      | none => searchFrom cs (i + 1)

/-- The call `regex.exec(text)` of the global regular expression when its
`lastIndex` is `lastIndex`; `none` is the result `null`. -/
def regexExec (text : String) (lastIndex : Nat) : Option RegexMatch :=
  if lastIndex > text.length then none
  else searchFrom (text.data.drop lastIndex) lastIndex

/-- The call `text.substring(start, stop)`: both positions are clamped to the
length of the text and swapped when out of order. -/
def substring (text : String) (start stop : Nat) : String :=
  let a := min start text.length
  let b := min stop text.length
  String.mk ((text.data.drop (min a b)).take (max a b - min a b))

/-- The call `text.substring(start)`. -/
def substringFrom (text : String) (start : Nat) : String :=
  substring text start text.length

/-- The `while` loop of `renderMessage` followed by the push of the trailing
text, from the loop state `lastIndex`, `parts`. Every iteration uses one unit
of `fuel`; `none` means the fuel ran out. -/
def renderLoop (text : String) : Nat → Nat → List Part → Option (List Part)
  | 0, _, _ => none
  | fuel + 1, lastIndex, parts =>
      match regexExec text lastIndex with
      | some m =>
          let parts1 :=
            if m.index > lastIndex then
              parts ++ [Part.text (substring text lastIndex m.index)]
            else parts
          let parts2 := parts1 ++ [Part.link lastIndex m.title m.url]
          renderLoop text fuel m.lastIndex parts2
      | none =>
          some (if lastIndex < text.length then
                  parts ++ [Part.text (substringFrom text lastIndex)]
                else parts)

/-- The function `renderMessage`, run with more fuel than the loop can use. -/
def renderMessage (text : String) : Option Rendered :=
  if text = "" then some Rendered.null
  else
    match renderLoop text (text.length + 1) 0 [] with
    | some parts => some (if parts.length > 0 then Rendered.parts parts else Rendered.raw text)
    | none => none

/-- A part written back as message text: a link becomes `[title](url)`. -/
def Part.source : Part → String
  | Part.text s => s
  | Part.link _ title url => "[" ++ title ++ "](" ++ url ++ ")"

/-- The parts written back and concatenated in order. -/
def joinParts : List Part → String
  | [] => ""
  | p :: ps => p.source ++ joinParts ps

/-- The characters of the markup `[t](u)`. -/
def linkChars (t u : List Char) : List Char :=
  '[' :: (t ++ ']' :: '(' :: (u ++ [')']))

end Chatbot

namespace WishlistPage

/-- One wishlist entry, with the fields `getFilteredItems` reads. -/
structure Item where
  id : Nat
  title : Option String
  wished_at : Option String
  deriving DecidableEq, Repr

/-- The call `s.includes(sub)`. -/
def includes (s sub : String) : Bool :=
  s.data.tails.any (fun t => sub.data.isPrefixOf t)

/-- The time value of `new Date(wished_at || 0)`: `new Date(0)` has time value
`0`; `dateParse` is the parse of a date string, `none` on an invalid date. -/
def dateOf (dateParse : String → Option Int) (wished_at : Option String) : Option Int :=
  if Chatbot.truthy wished_at then dateParse (wished_at.getD "") else some 0

/-- The comparator of the `latest` sort, `dateB - dateA`; a `NaN` result
(either date invalid) is read by `sort` as `0`. -/
def compareLatest (dateParse : String → Option Int) (a b : Item) : Int :=
  match dateOf dateParse a.wished_at, dateOf dateParse b.wished_at with
  | some dateA, some dateB => dateB - dateA
  | _, _ => 0

/-- The comparator of the `name` sort; `localeCompare` is a parameter. -/
def compareName (localeCompare : String → String → Int) (a b : Item) : Int :=
  localeCompare (Chatbot.orElse a.title "") (Chatbot.orElse b.title "")

/-- Inserts `a` in front of the first element it does not come after. -/
def insertSorted {α : Type} (cmp : α → α → Int) (a : α) : List α → List α
  | [] => [a]
  | b :: l => if cmp a b ≤ 0 then a :: b :: l else b :: insertSorted cmp a l

/-- The call `items.sort(cmp)`: `Array.prototype.sort` is stable, and this
insertion sort keeps elements that compare equal in their original order. -/
def sort {α : Type} (cmp : α → α → Int) : List α → List α
  | [] => []
  | a :: l => insertSorted cmp a (sort cmp l)

/-- The function `getFilteredItems`; the state it reads (`wishlistItems`,
`searchQuery`, `sortOrder`) and the library functions `toLowerCase`,
`Date` parsing and `localeCompare` are parameters. -/
def getFilteredItems (toLowerCase : String → String) (dateParse : String → Option Int)
    (localeCompare : String → String → Int)
    (wishlistItems : List Item) (searchQuery : String) (sortOrder : String) : List Item :=
  let items := wishlistItems
  let items :=
    if searchQuery != "" then
      items.filter (fun item =>
        Chatbot.truthy item.title &&
          includes (toLowerCase (item.title.getD "")) (toLowerCase searchQuery))
    else items
  if sortOrder = "name" then sort (compareName localeCompare) items
  else if sortOrder = "latest" then sort (compareLatest dateParse) items
  else items

end WishlistPage

/-! ## Concrete inputs -/

namespace Chatbot

/-- A state in the middle of a conversation, used as a concrete input. -/
def sampleState : ChatState :=
  { isOpen := true
    location := { pathname := "/", fromChatbot := none }
    messages := [greeting, { text := "hi", sender := Sender.user },
                 { text := "hello", sender := Sender.bot }]
    inputValue := "dra"
    isLoading := true
    quickQuestions := [{ label := "Q", cached_answer := some "X", link := none }] }

/-- A URL parser defined on two absolute URLs, used as a concrete input. -/
def sampleParse (s : String) : Option URLObj :=
  if s = "https://shop.example/x?y=1" then
    some { origin := "https://shop.example", pathname := "/x", search := "?y=1" }
  else if s = "https://other.example/" then
    some { origin := "https://other.example", pathname := "/", search := "" }
  else none

end Chatbot

/-! ## Theorems -/

namespace Chatbot

/-! ### Session reset policy -/

/-- C1: at a change of the navigation path, the conversation is reset to the
greeting, an empty draft and `pending = false` when the `fromChatbot` flag is
absent or false, and transcript, draft and pending are unchanged when the flag
is true. -/
theorem session_reset_policy (st : ChatState) (loc : Location)
    (hpath : loc.pathname ≠ st.location.pathname) :
    ((loc.fromChatbot = none ∨ loc.fromChatbot = some false) →
      (step st (Event.locationChange loc)).1.messages = [greeting] ∧
      (step st (Event.locationChange loc)).1.inputValue = "" ∧
      (step st (Event.locationChange loc)).1.isLoading = false) ∧
    (loc.fromChatbot = some true →
      (step st (Event.locationChange loc)).1.messages = st.messages ∧
      (step st (Event.locationChange loc)).1.inputValue = st.inputValue ∧
      (step st (Event.locationChange loc)).1.isLoading = st.isLoading) := by
  refine ⟨?_, ?_⟩
  · intro hflag
    rcases hflag with h | h <;>
      simp [step, hpath, resetEffect, truthyFlag, h]
  · intro h
    simp [step, hpath, resetEffect, truthyFlag, h]

/-- C1 at concrete inputs: a plain navigation resets `sampleState`, a
navigation flagged `fromChatbot` keeps it. -/
theorem session_reset_policy_witness :
    ((step sampleState (Event.locationChange ⟨"/cart", none⟩)).1.messages = [greeting] ∧
      (step sampleState (Event.locationChange ⟨"/cart", none⟩)).1.inputValue = "" ∧
      (step sampleState (Event.locationChange ⟨"/cart", none⟩)).1.isLoading = false) ∧
    ((step sampleState (Event.locationChange ⟨"/cart", some true⟩)).1.messages
        = sampleState.messages ∧
      (step sampleState (Event.locationChange ⟨"/cart", some true⟩)).1.inputValue
        = sampleState.inputValue ∧
      (step sampleState (Event.locationChange ⟨"/cart", some true⟩)).1.isLoading
        = sampleState.isLoading) :=
  ⟨(session_reset_policy sampleState ⟨"/cart", none⟩ (by decide)).1 (Or.inl rfl),
   (session_reset_policy sampleState ⟨"/cart", some true⟩ (by decide)).2 rfl⟩

/-! ### History window -/

theorem slice_neg14 {α : Type} (xs : List α) :
    slice xs (-14) = xs.drop (xs.length - 14) := by
  unfold slice
  simp only [show ((-14 : Int) < 0) from by decide, if_true]
  congr 1
  omega

/-- C2: the chat request issued by `sendMessage(text)` carries, as `history`,
the last `min 14 L` messages of the transcript as it was before the user turn
was appended, in order; its length is `min 14 L`, hence at most 14. -/
theorem history_window (st : ChatState) (text : String) :
    ∃ history : List Message,
      (sendMessageStart st text).2 = [Effect.chatRequest text history] ∧
      history = st.messages.drop (st.messages.length - min 14 st.messages.length) ∧
      history <:+ st.messages ∧
      history.length = min 14 st.messages.length ∧
      history.length ≤ 14 := by
  refine ⟨slice st.messages (-14), rfl, ?_, ?_, ?_, ?_⟩
  · rw [slice_neg14]; congr 1; omega
  · rw [slice_neg14]; exact List.drop_suffix _ _
  · rw [slice_neg14, List.length_drop]; omega
  · rw [slice_neg14, List.length_drop]; omega

/-! ### Link click classification -/

/-- C3: `handleLinkClick` performs exactly one action: in-app navigation to the
raw target when it does not start with `http` or when parsing fails, in-app
navigation to `pathname + search` when the parsed origin is the document
origin, and an external open of the target otherwise; every in-app navigation
carries `fromChatbot = true`. -/
theorem link_click_classification (parseURL : String → Option URLObj)
    (windowOrigin targetUrl : String) :
    (startsWith targetUrl "http" = false →
      handleLinkClick parseURL windowOrigin targetUrl
        = [Effect.navigate targetUrl true]) ∧
    (∀ u : URLObj, startsWith targetUrl "http" = true → parseURL targetUrl = some u →
      u.origin = windowOrigin →
      handleLinkClick parseURL windowOrigin targetUrl
        = [Effect.navigate (u.pathname ++ u.search) true]) ∧
    (∀ u : URLObj, startsWith targetUrl "http" = true → parseURL targetUrl = some u →
      u.origin ≠ windowOrigin →
      handleLinkClick parseURL windowOrigin targetUrl = [Effect.windowOpen targetUrl]) ∧
    (startsWith targetUrl "http" = true → parseURL targetUrl = none →
      handleLinkClick parseURL windowOrigin targetUrl
        = [Effect.navigate targetUrl true]) := by
  refine ⟨?_, ?_, ?_, ?_⟩
  · intro h; simp [handleLinkClick, h]
  · intro u h hp ho; simp [handleLinkClick, h, hp, ho]
  · intro u h hp ho; simp [handleLinkClick, h, hp, ho]
  · intro h hp; simp [handleLinkClick, h, hp]

/-- C3 at concrete inputs: a relative path, a same-origin URL, a cross-origin
URL and a malformed URL. -/
theorem link_click_classification_witness :
    handleLinkClick sampleParse "https://shop.example" "/about"
      = [Effect.navigate "/about" true] ∧
    handleLinkClick sampleParse "https://shop.example" "https://shop.example/x?y=1"
      = [Effect.navigate ("/x" ++ "?y=1") true] ∧
    handleLinkClick sampleParse "https://shop.example" "https://other.example/"
      = [Effect.windowOpen "https://other.example/"] ∧
    handleLinkClick sampleParse "https://shop.example" "http://["
      = [Effect.navigate "http://[" true] :=
  ⟨(link_click_classification sampleParse "https://shop.example" "/about").1 (by decide),
   (link_click_classification sampleParse "https://shop.example"
      "https://shop.example/x?y=1").2.1
      { origin := "https://shop.example", pathname := "/x", search := "?y=1" } (by decide) (by decide) (by decide),
   (link_click_classification sampleParse "https://shop.example"
      "https://other.example/").2.2.1
      { origin := "https://other.example", pathname := "/", search := "" } (by decide) (by decide) (by decide),
   (link_click_classification sampleParse "https://shop.example" "http://[").2.2.2
      (by decide) (by decide)⟩

/-! ### Link rendering -/

theorem matchAt_spec (s t u : List Char) (h : matchAt s = some (t, u)) :
    ∃ rest, s = linkChars t u ++ rest ∧ t ≠ [] ∧ ']' ∉ t ∧ u ≠ [] ∧ ')' ∉ u := by
  cases s with
  | nil => simp [matchAt] at h
  | cons c rest =>
    unfold matchAt at h
    simp only at h
    split_ifs at h with hc
    split at h
    · rename_i c1 c2 rest2 hdrop
      split_ifs at h with h12
      split at h
      · rename_i c3 rest3 hdrop2
        split_ifs at h with h3
        simp only [Option.some.injEq, Prod.mk.injEq] at h
        obtain ⟨ht, hu⟩ := h
        obtain ⟨hc1, hc2⟩ := h12
        obtain ⟨hc3, htne, hune⟩ := h3
        refine ⟨rest3, ?_, ?_, ?_, ?_, ?_⟩
        · have e1 := List.takeWhile_append_dropWhile (fun x => x != ']') rest
          have e2 := List.takeWhile_append_dropWhile (fun x => x != ')') rest2
          rw [hdrop, ht] at e1
          rw [hdrop2, hu] at e2
          subst hc hc1 hc2 hc3
          rw [← e1, ← e2]
          simp [linkChars]
        · rw [← ht]; exact htne
        · rw [← ht]
          intro hmem
          have := List.mem_takeWhile_imp hmem
          simp at this
        · rw [← hu]; exact hune
        · rw [← hu]
          intro hmem
          have := List.mem_takeWhile_imp hmem
          simp at this
      · simp at h
    · simp at h

theorem searchFrom_spec (s : List Char) (i : Nat) (m : RegexMatch)
    (h : searchFrom s i = some m) :
    ∃ pre t u rest, s = pre ++ (linkChars t u ++ rest) ∧ m.index = i + pre.length ∧
      m.title = String.mk t ∧ m.url = String.mk u ∧
      m.lastIndex = i + pre.length + (linkChars t u).length ∧
      t ≠ [] ∧ ']' ∉ t ∧ u ≠ [] ∧ ')' ∉ u := by
  induction s generalizing i with
  | nil => simp [searchFrom] at h
  | cons c cs ih =>
    rw [searchFrom] at h
    split at h
    · rename_i t u hm
      obtain ⟨rest, hs, p1, p2, p3, p4⟩ := matchAt_spec _ _ _ hm
      simp only [Option.some.injEq] at h
      subst h
      refine ⟨[], t, u, rest, by simpa using hs, by simp, rfl, rfl, ?_, p1, p2, p3, p4⟩
      simp [linkChars]
      omega
    · obtain ⟨pre, t, u, rest, hs, h1, h2, h3, h4, ps⟩ := ih (i + 1) h
      refine ⟨c :: pre, t, u, rest, by simp [hs], ?_, h2, h3, ?_, ps⟩
      · simp [h1]; omega
      · simp [h4]; omega

theorem substring_data (text : String) (A B C : List Char) (h : text.data = A ++ (B ++ C)) :
    (substring text A.length (A.length + B.length)).data = B := by
  have hlen : text.length = A.length + (B.length + C.length) := by
    show text.data.length = _
    rw [h]; simp
  unfold substring
  simp only [hlen]
  have e1 : min A.length (A.length + (B.length + C.length)) = A.length := by omega
  have e2 : min (A.length + B.length) (A.length + (B.length + C.length))
      = A.length + B.length := by omega
  have e3 : min A.length (A.length + B.length) = A.length := by omega
  have e4 : max A.length (A.length + B.length) - A.length = B.length := by omega
  simp only [e1, e2, e3, e4, h]
  simp

theorem joinParts_append (ps qs : List Part) :
    (joinParts (ps ++ qs)).data = (joinParts ps).data ++ (joinParts qs).data := by
  induction ps with
  | nil => simp [joinParts]
  | cons p ps ih => simp [joinParts, String.data_append, ih]

theorem renderLoop_spec (text : String) :
    ∀ (fuel lastIndex : Nat) (parts : List Part) (suffix : List Char),
      text.data = (joinParts parts).data ++ suffix →
      lastIndex = (joinParts parts).data.length →
      (∀ k t u, Part.link k t u ∈ parts →
        t ≠ "" ∧ ']' ∉ t.data ∧ u ≠ "" ∧ ')' ∉ u.data) →
      suffix.length < fuel →
      ∃ ps, renderLoop text fuel lastIndex parts = some ps ∧
        (joinParts ps).data = text.data ∧
        (∀ k t u, Part.link k t u ∈ ps →
          t ≠ "" ∧ ']' ∉ t.data ∧ u ≠ "" ∧ ')' ∉ u.data) := by
  intro fuel
  induction fuel with
  | zero => intro _ _ _ _ _ _ hf; omega
  | succ fuel ih =>
    intro lastIndex parts suffix hdata hidx hgood hfuel
    have hlen : text.length = lastIndex + suffix.length := by
      show text.data.length = _
      rw [hdata, hidx]; simp
    have hdrop : text.data.drop lastIndex = suffix := by
      rw [hdata, hidx]; simp
    rw [renderLoop]
    have hexec : regexExec text lastIndex = searchFrom suffix lastIndex := by
      unfold regexExec
      rw [if_neg (by omega), hdrop]
    rw [hexec]
    cases hs : searchFrom suffix lastIndex with
    | none =>
      simp only
      by_cases hlt : lastIndex < text.length
      · rw [if_pos hlt]
        refine ⟨_, rfl, ?_, ?_⟩
        · have hsub : (substringFrom text lastIndex).data = suffix := by
            have := substring_data text (joinParts parts).data suffix [] (by simpa using hdata)
            unfold substringFrom
            rw [hlen, hidx]
            exact this
          rw [joinParts_append, hdata]
          simp [joinParts, Part.source, hsub]
        · intro k t u hmem
          simp only [List.mem_append, List.mem_singleton] at hmem
          rcases hmem with hmem | hmem
          · exact hgood k t u hmem
          · cases hmem
      · rw [if_neg hlt]
        refine ⟨_, rfl, ?_, hgood⟩
        have : suffix = [] := by
          apply List.eq_nil_of_length_eq_zero
          omega
        rw [hdata, this]; simp
    | some m =>
      simp only
      obtain ⟨pre, t, u, rest, hsuf, hmi, hmt, hmu, hml, p1, p2, p3, p4⟩ :=
        searchFrom_spec suffix lastIndex m hs
      have hsub : (substring text lastIndex m.index).data = pre := by
        have := substring_data text (joinParts parts).data pre (linkChars t u ++ rest)
          (by rw [hdata, hsuf])
        rw [hmi, hidx]
        exact this
      have hparts1 :
          (joinParts (if m.index > lastIndex then
              parts ++ [Part.text (substring text lastIndex m.index)] else parts)).data
            = (joinParts parts).data ++ pre := by
        by_cases hgt : m.index > lastIndex
        · rw [if_pos hgt, joinParts_append]
          simp [joinParts, Part.source, hsub]
        · rw [if_neg hgt]
          have : pre = [] := by
            apply List.eq_nil_of_length_eq_zero
            omega
          simp [this]
      have hlink : (joinParts [Part.link lastIndex m.title m.url]).data = linkChars t u := by
        simp [joinParts, Part.source, String.data_append, hmt, hmu, linkChars]
      apply ih m.lastIndex _ rest
      · rw [joinParts_append, hparts1, hlink, hdata, hsuf]
        simp
      · rw [joinParts_append, hparts1, hlink, hml, hidx]
        simp
        omega
      · intro k t2 u2 hmem
        simp only [List.mem_append, List.mem_singleton] at hmem
        rcases hmem with hmem | hmem
        · by_cases hgt : m.index > lastIndex
          · rw [if_pos hgt] at hmem
            simp only [List.mem_append, List.mem_singleton] at hmem
            rcases hmem with hmem | hmem
            · exact hgood k t2 u2 hmem
            · cases hmem
          · rw [if_neg hgt] at hmem
            exact hgood k t2 u2 hmem
        · simp only [Part.link.injEq] at hmem
          obtain ⟨_, ht2, hu2⟩ := hmem
          subst ht2 hu2
          rw [hmt, hmu]
          refine ⟨?_, p2, ?_, p4⟩
          · intro hc; apply p1; simpa using congrArg String.data hc
          · intro hc; apply p3; simpa using congrArg String.data hc
      · have h1 : suffix.length = pre.length + ((linkChars t u).length + rest.length) := by
          rw [hsuf]; simp
        have h2 : 0 < (linkChars t u).length := by simp [linkChars]
        omega

/-- C4: for a non-empty text `renderMessage` returns an array of parts; writing
every link part back as `[title](url)` and concatenating the parts in order
gives the text again; every title is non-empty and has no `]`, every url is
non-empty and has no `)`. -/
theorem link_rendering_lossless (text : String) (h : text ≠ "") :
    ∃ ps, renderMessage text = some (Rendered.parts ps) ∧
      joinParts ps = text ∧
      (∀ key title url, Part.link key title url ∈ ps →
        title ≠ "" ∧ ']' ∉ title.data ∧ url ≠ "" ∧ ')' ∉ url.data) := by
  obtain ⟨ps, hrun, hjoin, hgood⟩ :=
    renderLoop_spec text (text.length + 1) 0 [] text.data
      (by simp [joinParts]) (by simp [joinParts]) (by simp)
      (by show text.data.length < text.length + 1; exact Nat.lt_succ_self _)
  have hjoin2 : joinParts ps = text := String.ext hjoin
  have hne : ps.length > 0 := by
    cases ps with
    | nil => exact absurd hjoin2.symm h
    | cons p ps => simp
  refine ⟨ps, ?_, hjoin2, hgood⟩
  unfold renderMessage
  rw [if_neg h, hrun]
  simp only [if_pos hne]

/-- C4 at a concrete input with two links and text around them. -/
theorem link_rendering_lossless_witness :
    "a[환불안내](/help/refund)b[x](y)" ≠ "" ∧
    ∃ ps, renderMessage "a[환불안내](/help/refund)b[x](y)" = some (Rendered.parts ps) ∧
      joinParts ps = "a[환불안내](/help/refund)b[x](y)" ∧
      (∀ key title url, Part.link key title url ∈ ps →
        title ≠ "" ∧ ']' ∉ title.data ∧ url ≠ "" ∧ ')' ∉ url.data) :=
  ⟨by decide, link_rendering_lossless "a[환불안내](/help/refund)b[x](y)" (by decide)⟩

/-! ### Sending a message -/

/-- C5, as stated, fails: a reply that is present but empty is replaced by the
no-reply fallback text. -/
theorem send_success_empty_reply :
    (sendMessage sampleState "ping" (Outcome.resolved (some { reply := some "" }))).1.messages
      = sampleState.messages ++ [{ text := "ping", sender := Sender.user },
                                 { text := fallbackNoReplyText, sender := Sender.bot }] ∧
    fallbackNoReplyText ≠ "" := by
  decide

/-- C5, amended: on success the bot turn appended after the user turn has
sender bot and carries the reply when the reply is a non-empty string, and the
no-reply fallback text when the reply is absent or the empty string. -/
theorem send_success_reply (st : ChatState) (text : String) (reply : Option String) :
    (∀ r : String, reply = some r → r ≠ "" →
      (sendMessage st text (Outcome.resolved (some { reply := reply }))).1.messages
        = st.messages ++ [{ text := text, sender := Sender.user },
                          { text := r, sender := Sender.bot }]) ∧
    ((reply = none ∨ reply = some "") →
      (sendMessage st text (Outcome.resolved (some { reply := reply }))).1.messages
        = st.messages ++ [{ text := text, sender := Sender.user },
                          { text := fallbackNoReplyText, sender := Sender.bot }]) := by
  refine ⟨?_, ?_⟩
  · intro r hr hne
    simp [sendMessage, sendMessageStart, sendMessageSettle, orElse, hr, hne]
  · intro h
    rcases h with h | h <;>
      simp [sendMessage, sendMessageStart, sendMessageSettle, orElse, h]

/-- C5 amended, at concrete inputs: a non-empty reply and an absent reply. -/
theorem send_success_reply_witness :
    (sendMessage sampleState "ping" (Outcome.resolved (some { reply := some "pong" }))).1.messages
      = sampleState.messages ++ [{ text := "ping", sender := Sender.user },
                                 { text := "pong", sender := Sender.bot }] ∧
    (sendMessage sampleState "ping" (Outcome.resolved (some { reply := none }))).1.messages
      = sampleState.messages ++ [{ text := "ping", sender := Sender.user },
                                 { text := fallbackNoReplyText, sender := Sender.bot }] :=
  ⟨(send_success_reply sampleState "ping" (some "pong")).1 "pong" rfl (by decide),
   (send_success_reply sampleState "ping" none).2 (Or.inl rfl)⟩

theorem run_concat (st : ChatState) (es : List Event) (e : Event) :
    run st (es ++ [e]) = (step (run st es) e).1 := by
  induction es generalizing st with
  | nil => rfl
  | cons e1 es ih => exact ih (step st e1).1

/-- C7, as stated, fails: with the widget open and one cached quick reply
loaded, the user sends "a", clicks the quick reply while the request is in
flight, and the request then rejects. No reset happens, and the transcript
ends with the quick-reply turns between the user turn and the error turn. -/
theorem failed_send_interleaved :
    (run (initialState { pathname := "/", fromChatbot := none })
        [Event.toggle,
         Event.suggestionsSettled (Outcome.resolved (some (SuggestionsData.mk
           (some [QuickReply.mk "Q" (some "X") none])))),
         Event.input "a", Event.send,
         Event.quickClick { label := "Q", cached_answer := some "X", link := none },
         Event.chatSettled Outcome.rejected]).messages
      = [greeting, { text := "a", sender := Sender.user },
         { text := "Q", sender := Sender.user }, { text := "X", sender := Sender.bot },
         { text := fallbackErrorText, sender := Sender.bot }] ∧
    (run (initialState { pathname := "/", fromChatbot := none })
        [Event.toggle,
         Event.suggestionsSettled (Outcome.resolved (some (SuggestionsData.mk
           (some [QuickReply.mk "Q" (some "X") none])))),
         Event.input "a", Event.send,
         Event.quickClick { label := "Q", cached_answer := some "X", link := none },
         Event.chatSettled Outcome.rejected]).messages
      ≠ [greeting, { text := "a", sender := Sender.user },
         { text := fallbackErrorText, sender := Sender.bot }] := by
  decide

/-- C7, amended: when the chat request fails (the promise rejects, or reading
the response throws) and no event occurs between the dispatch and the failure,
the transcript ends as the old transcript, the user turn and one bot turn with
the fallback error text, and `pending` ends false. Whatever events `es` occur
in between, the failure appends exactly one bot turn with the fallback error
text to the transcript as it stands then, and `pending` ends false; `pending`
ends false on success as well. -/
theorem failed_send (st : ChatState) (text : String) (es : List Event) (d : ChatData) :
    ((sendMessage st text Outcome.rejected).1.messages
        = st.messages ++ [{ text := text, sender := Sender.user },
                          { text := fallbackErrorText, sender := Sender.bot }] ∧
      (sendMessage st text Outcome.rejected).1.isLoading = false ∧
      (sendMessage st text (Outcome.resolved none)).1.messages
        = st.messages ++ [{ text := text, sender := Sender.user },
                          { text := fallbackErrorText, sender := Sender.bot }] ∧
      (sendMessage st text (Outcome.resolved none)).1.isLoading = false ∧
      (sendMessage st text (Outcome.resolved (some d))).1.isLoading = false) ∧
    ((run (sendMessageStart st text).1 (es ++ [Event.chatSettled Outcome.rejected])).messages
        = (run (sendMessageStart st text).1 es).messages
            ++ [{ text := fallbackErrorText, sender := Sender.bot }] ∧
      (run (sendMessageStart st text).1
          (es ++ [Event.chatSettled Outcome.rejected])).isLoading = false ∧
      (run (sendMessageStart st text).1
          (es ++ [Event.chatSettled (Outcome.resolved none)])).messages
        = (run (sendMessageStart st text).1 es).messages
            ++ [{ text := fallbackErrorText, sender := Sender.bot }] ∧
      (run (sendMessageStart st text).1
          (es ++ [Event.chatSettled (Outcome.resolved none)])).isLoading = false ∧
      (run (sendMessageStart st text).1
          (es ++ [Event.chatSettled (Outcome.resolved (some d))])).isLoading = false) := by
  refine ⟨?_, ?_⟩
  · simp [sendMessage, sendMessageStart, sendMessageSettle]
  · simp only [run_concat]
    simp [step, sendMessageSettle]

/-! ### Quick replies -/

/-- C6, as stated, fails: after a failed suggestions request the quick-reply
set is still the previous one, which here is not empty. -/
theorem refresh_failure_keeps_previous :
    (loadSuggestionsSettle sampleState Outcome.rejected).quickQuestions
      = [{ label := "Q", cached_answer := some "X", link := none }] ∧
    (loadSuggestionsSettle sampleState Outcome.rejected).quickQuestions ≠ [] := by
  decide

/-- C6, amended: after a successful suggestions request the quick-reply set is
the response's suggestion list, or empty when the response has none, whatever
the previous set was; after a failed request it is the previous set. -/
theorem refresh_quick_replies (st : ChatState) (l : List QuickReply) :
    (loadSuggestionsSettle st
        (Outcome.resolved (some { suggestions := some l }))).quickQuestions = l ∧
    (loadSuggestionsSettle st
        (Outcome.resolved (some { suggestions := none }))).quickQuestions = [] ∧
    (loadSuggestionsSettle st Outcome.rejected).quickQuestions = st.quickQuestions ∧
    (loadSuggestionsSettle st (Outcome.resolved none)).quickQuestions = st.quickQuestions := by
  simp [loadSuggestionsSettle]

/-- C8, as stated, fails: a quick reply whose cached answer is the empty string
is sent as a chat request, and only the user turn is appended. -/
theorem quick_click_empty_cached_answer :
    handleQuickClick sampleState { label := "Q", cached_answer := some "", link := none }
      = ({ sampleState with
            messages := sampleState.messages ++ [{ text := "Q", sender := Sender.user }],
            isLoading := true },
         [Effect.chatRequest "Q" sampleState.messages]) := by
  decide

/-- C8, amended: for a quick reply whose cached answer is a non-empty string,
`handleQuickClick` appends the user turn with the label and the bot turn with
the cached answer, leaves `pending` unchanged and issues no chat request; it
issues one in-app navigation to the link with `fromChatbot = true` when the
link is a non-empty string, and nothing when the link is absent or empty. -/
theorem cached_quick_reply (st : ChatState) (q : QuickReply) (a : String)
    (hq : q.cached_answer = some a) (ha : a ≠ "") :
    (handleQuickClick st q).1.messages
      = st.messages ++ [{ text := q.label, sender := Sender.user },
                        { text := a, sender := Sender.bot }] ∧
    (handleQuickClick st q).1.isLoading = st.isLoading ∧
    (∀ m h, Effect.chatRequest m h ∉ (handleQuickClick st q).2) ∧
    (∀ l : String, q.link = some l → l ≠ "" →
      (handleQuickClick st q).2 = [Effect.navigate l true]) ∧
    ((q.link = none ∨ q.link = some "") → (handleQuickClick st q).2 = []) := by
  have ht : truthy q.cached_answer = true := by simp [truthy, hq, ha]
  have hrun : handleQuickClick st q
      = ({ st with messages := st.messages ++ [Message.mk q.label Sender.user]
                                ++ [Message.mk a Sender.bot] },
         if truthy q.link then [Effect.navigate (q.link.getD "") true] else []) := by
    unfold handleQuickClick
    rw [if_pos ht]
    simp only [hq, Option.getD_some]
  rw [hrun]
  refine ⟨?_, ?_, ?_, ?_, ?_⟩
  · simp
  · simp
  · intro m h
    split <;> simp
  · intro l hl hne
    simp [truthy, hl, hne]
  · intro h
    rcases h with h | h <;> simp [truthy, h]

/-- C8 amended, at a concrete input: a cached answer with a link. -/
theorem cached_quick_reply_witness :
    (handleQuickClick sampleState
        { label := "Q", cached_answer := some "X", link := some "/help" }).1.messages
      = sampleState.messages ++ [{ text := "Q", sender := Sender.user },
                                 { text := "X", sender := Sender.bot }] ∧
    (handleQuickClick sampleState
        { label := "Q", cached_answer := some "X", link := some "/help" }).2
      = [Effect.navigate "/help" true] :=
  ⟨(cached_quick_reply sampleState
      { label := "Q", cached_answer := some "X", link := some "/help" } "X" rfl (by decide)).1,
   (cached_quick_reply sampleState
      { label := "Q", cached_answer := some "X", link := some "/help" } "X" rfl
      (by decide)).2.2.2.1 "/help" rfl (by decide)⟩

/-! ### Transcript over event sequences -/

theorem step_appends (st : ChatState) (e : Event)
    (htoggle : e ≠ Event.toggle) (hloc : ∀ loc, e ≠ Event.locationChange loc) :
    st.messages <+: (step st e).1.messages := by
  cases e with
  | input v => exact List.prefix_refl _
  | send =>
    simp only [step, handleSendMessage]
    split
    · exact List.prefix_refl _
    · exact List.prefix_append _ _
  | chatSettled o =>
    simp only [step, sendMessageSettle]
    split <;> exact List.prefix_append _ _
  | quickClick q =>
    simp only [step, handleQuickClick]
    split
    · simp only [List.append_assoc]
      exact List.prefix_append _ _
    · exact List.prefix_append _ _
  | toggle => exact absurd rfl htoggle
  | locationChange loc => exact absurd rfl (hloc loc)
  | suggestionsSettled o =>
    simp only [step, loadSuggestionsSettle]
    split <;> exact List.prefix_refl _

/-- C9 fails on the code: from the mounted widget, opening it, sending "hi" and
receiving "hello" gives a transcript of three messages; closing the widget
then, with no navigation at all, runs the reset effect (its dependencies
include `isOpen`) and, the location carrying no `fromChatbot` flag, replaces
the transcript by the greeting. -/
theorem toggle_resets_transcript :
    (run (initialState { pathname := "/", fromChatbot := none })
        [Event.toggle, Event.input "hi", Event.send,
         Event.chatSettled (Outcome.resolved (some { reply := some "hello" }))]).messages
      = [greeting, { text := "hi", sender := Sender.user },
         { text := "hello", sender := Sender.bot }] ∧
    (run (initialState { pathname := "/", fromChatbot := none })
        [Event.toggle, Event.input "hi", Event.send,
         Event.chatSettled (Outcome.resolved (some { reply := some "hello" })),
         Event.toggle]).messages
      = [greeting] := by
  decide

end Chatbot

namespace WishlistPage

/-- C10 fails on the code: two items without `wished_at`, given in ascending
order of `id`, come back from the `latest` sort in the same order, not in
descending order of `id`. -/
theorem latest_sort_ignores_id (toLowerCase : String → String)
    (dateParse : String → Option Int) (localeCompare : String → String → Int) :
    (getFilteredItems toLowerCase dateParse localeCompare
        [{ id := 1, title := some "a", wished_at := none },
         { id := 2, title := some "b", wished_at := none }] "" "latest").map Item.id
      = [1, 2] := by
  simp [getFilteredItems, sort, insertSorted, compareLatest, dateOf, Chatbot.truthy]

end WishlistPage
